import Mathlib

/-!
Verification development for the SQL-agent backend (src/Backend/main.py).

The backend keeps three pieces of process-wide mutable state: the parsed
configuration (`DATABASE_DETAILS`, `GPT_SETTINGS`), the connection registry
(`DB_CONNECTIONS`, a dict from string keys to connection/engine objects), and
the persisted config file.  We embed that state as `BackendState` and each
endpoint/helper as a state-passing function returning
`Except BackendError α × BackendState`.

Connection handles are modelled as `DbHandle`: a fresh allocation counter
value (`hid`, standing for object identity / reference equality) together
with the connection string the handle was opened with.  Opening a connection
is modelled as allocating a fresh `hid` and bumping the `opened` counter;
what the external database does with the connection string is outside the
model.  Python strings are modelled as Lean strings, Python `\s` and
`str.strip()` over the ASCII whitespace characters.
-/

namespace SqlAgent

/-- Contents of the `database` section of the config (pydantic model
`DatabaseDetails` in the source: host, port, user, password). -/
structure DatabaseDetails where
  host : String
  port : Int
  user : String
  password : String
deriving DecidableEq

/-- Contents of the `gpt` section of the config (pydantic model
`GPTSettings`: gpt_api_key, temperature, model). -/
structure GptSettings where
  gpt_api_key : String
  temperature : ℚ
  model : String
deriving DecidableEq

/-- Payload of POST /save-config-details (pydantic model `Settings`). -/
structure Settings where
  database : DatabaseDetails
  gpt : GptSettings
deriving DecidableEq

/-- One entry of the `DB_CONNECTIONS` registry: `hid` is the identity of the
underlying Python object (fresh per construction, so `hid` equality models
reference equality), `connStr` the connection string it was opened with. -/
structure DbHandle where
  hid : Nat
  connStr : String
deriving DecidableEq

/-- Errors surfaced by the embedded operations: a Python `KeyError` on a
missing dict key, or a FastAPI `HTTPException(status_code, detail)`. -/
inductive BackendError where
  | keyError (key : String)
  | httpError (status : Nat) (detail : String)
deriving DecidableEq

/-- Python `str(e)` for the two modelled exception shapes:
`str(KeyError('user'))` is `"'user'"`, and Starlette's
`HTTPException.__str__` is `f"{status_code}: {detail}"`. -/
def errStr : BackendError → String
  | .keyError k => "'" ++ k ++ "'"
  | .httpError status detail => toString status ++ ": " ++ detail

/-- Process-wide mutable state of the backend:
`DATABASE_DETAILS` / `GPT_SETTINGS` (empty dict modelled as `none`),
the `DB_CONNECTIONS` dict, the allocation/open counters of the model, and
the persisted config file (`none` when absent). -/
structure BackendState where
  databaseDetails : Option DatabaseDetails
  gptSettings : Option GptSettings
  dbConnections : List (String × DbHandle)
  nextHandle : Nat
  opened : Nat
  configFile : Option (DatabaseDetails × GptSettings)
deriving DecidableEq

/-- Connection string built in `create_db_connection` / `get_engine`
(lines 87-88, 320-323, 349-352 of src/Backend/main.py). -/
def mssqlConnStr (d : DatabaseDetails) (database : String) : String :=
  "mssql+pyodbc://" ++ d.user ++ ":" ++ d.password ++ "@" ++ d.host ++ ":" ++
    toString d.port ++ "/" ++ database ++ "?driver=ODBC+Driver+17+for+SQL+Server"

/-- Registry key used by `get_engine` (line 347):
`f"{host}:{port}/{database}"`. -/
def engineKey (d : DatabaseDetails) (database : String) : String :=
  d.host ++ ":" ++ toString d.port ++ "/" ++ database

/-- Registry key used by `list_databases` (line 317): `f"{host}:{port}"`. -/
def serverKey (d : DatabaseDetails) : String :=
  d.host ++ ":" ++ toString d.port

/-- Startup state after `load_config()` (lines 63-72): if the config file
exists its two sections are loaded, otherwise both globals stay empty; the
connection registry starts empty. -/
def load_config (file : Option (DatabaseDetails × GptSettings)) : BackendState :=
  { databaseDetails := file.map Prod.fst
    gptSettings := file.map Prod.snd
    dbConnections := []
    nextHandle := 0
    opened := 0
    configFile := file }

/-- Helper `create_db_connection` (lines 77-99): return the cached handle if
the database name is a key of `DB_CONNECTIONS`; otherwise build the
connection string from `DATABASE_DETAILS` (raising `KeyError('user')` when
the dict is empty — the `except` clause only catches `SQLAlchemyError`, so
the `KeyError` escapes), open a new connection and cache it under the
database name. -/
def create_db_connection (st : BackendState) (database : String) :
    Except BackendError DbHandle × BackendState :=
  match st.dbConnections.lookup database with
  | some db => (.ok db, st)
  | none =>
    match st.databaseDetails with
    | none => (.error (.keyError "user"), st)
    | some d =>
      let db : DbHandle := { hid := st.nextHandle, connStr := mssqlConnStr d database }
      (.ok db,
        { st with
          dbConnections := (database, db) :: st.dbConnections
          nextHandle := st.nextHandle + 1
          opened := st.opened + 1 })

/-- Helper `get_engine` (lines 346-354): key `f"{host}:{port}/{database}"`
(computed before the cache check, so an empty `DATABASE_DETAILS` raises
`KeyError('host')`); create and cache an engine when the key is absent. -/
def get_engine (st : BackendState) (database : String) :
    Except BackendError DbHandle × BackendState :=
  match st.databaseDetails with
  | none => (.error (.keyError "host"), st)
  | some d =>
    match st.dbConnections.lookup (engineKey d database) with
    | some db => (.ok db, st)
    | none =>
      let db : DbHandle := { hid := st.nextHandle, connStr := mssqlConnStr d database }
      (.ok db,
        { st with
          dbConnections := (engineKey d database, db) :: st.dbConnections
          nextHandle := st.nextHandle + 1
          opened := st.opened + 1 })

/-- The explicit configuration-missing error raised by `list_databases`
(lines 313-314) when `DATABASE_DETAILS` is empty. -/
def configurationMissing : BackendError :=
  .httpError 500 "Database details not configured."

/-- Endpoint GET /list-databases (lines 309-343), modelled up to acquisition
of the server engine (the rows it then reads from `sys.databases` come from
the external server): explicit 500 when `DATABASE_DETAILS` is empty,
otherwise cache an engine under `f"{host}:{port}"` and reuse it. -/
def list_databases (st : BackendState) :
    Except BackendError DbHandle × BackendState :=
  match st.databaseDetails with
  | none => (.error configurationMissing, st)
  | some d =>
    match st.dbConnections.lookup (serverKey d) with
    | some db => (.ok db, st)
    | none =>
      let db : DbHandle := { hid := st.nextHandle, connStr := mssqlConnStr d "master" }
      (.ok db,
        { st with
          dbConnections := (serverKey d, db) :: st.dbConnections
          nextHandle := st.nextHandle + 1
          opened := st.opened + 1 })

/-- Endpoint POST /save-config-details (lines 289-306): assign both global
dicts from the payload, then write the config file; `writeErr = some msg`
models the file write raising an exception with message `msg`, in which case
the handler returns a 500 while the in-memory assignment stays in place. -/
def save_config_details (st : BackendState) (s : Settings) (writeErr : Option String) :
    Except BackendError String × BackendState :=
  let st1 : BackendState :=
    { st with databaseDetails := some s.database, gptSettings := some s.gpt }
  match writeErr with
  | some msg =>
    (.error (.httpError 500 ("Error saving config details: " ++ msg)), st1)
  | none =>
    (.ok "Database and GPT details saved successfully!",
      { st1 with configFile := some (s.database, s.gpt) })

/-- Endpoint GET /list-tables/ (lines 358-380), modelled up to engine
acquisition.  The handler's `try` raises `HTTPException(400)` on an empty
database name, but both that exception and any `KeyError` from `get_engine`
are caught by the trailing `except Exception` and re-raised as
`HTTPException(500, f"Error processing the request: {str(e)}")`. -/
def list_tables (st : BackendState) (database : String) :
    Except BackendError DbHandle × BackendState :=
  let body : Except BackendError DbHandle × BackendState :=
    if database = "" then
      (.error (.httpError 400 "Database name is required."), st)
    else
      get_engine st database
  match body with
  | (.ok db, st1) => (.ok db, st1)
  | (.error e, st1) =>
    (.error (.httpError 500 ("Error processing the request: " ++ errStr e)), st1)

/-- Python's `\s` character class, restricted to the ASCII whitespace
characters (all texts in the spec's scenarios are ASCII). -/
def pySpace (c : Char) : Bool :=
  c = ' ' || c = '\t' || c = '\n' || c = '\r' || c = '\x0b' || c = '\x0c'

/-- Python `str.strip()` with no argument: drop leading and trailing
whitespace. -/
def pyStrip (l : List Char) : List Char :=
  ((l.dropWhile pySpace).reverse.dropWhile pySpace).reverse

/-- The literal `SQL Query:` that both regex patterns start with. -/
def sqlLabel : List Char := "SQL Query:".data

/-- The literal closing fence of the strict pattern. -/
def fence : List Char := "```".data

/-- The literal opening fence of the strict pattern. -/
def fenceSql : List Char := "```sql".data

/-- The literal that the fallback pattern's lookahead stops at. -/
def exampleLabel : List Char := "Example Data:".data

/-- Matcher for the suffix ``\s*(.*?)\s*``` `` of the strict pattern
`SQL Query:.*?```sql\s*(.*?)\s*``` `, applied after the leading greedy
`\s*` has been committed (the group therefore never starts with
whitespace; `acc` accumulates the group in reverse).  The lazy group grows
one character at a time; it stops as soon as the rest of the input, with
its whitespace run skipped (the only extent of the trailing `\s*` that a
backtick can follow), starts with ``` . -/
def tailScan : List Char → List Char → Option (List Char)
  | _, [] => none
  | acc, c :: rest =>
    if fence.isPrefixOf ((c :: rest).dropWhile pySpace) then some acc.reverse
    else tailScan (c :: acc) rest

/-- The group produced by the strict pattern's tail on the text following
````sql` : commit the leading greedy `\s*`, then run `tailScan`. -/
def groupAfterFence (l : List Char) : Option (List Char) :=
  tailScan [] (l.dropWhile pySpace)

/-- The lazy `.*?` between `SQL Query:` and ````sql` : scan left to right
for an occurrence of ````sql` whose tail matches; on a tail failure the
lazy quantifier backtracks to the next occurrence. -/
def findFence : List Char → Option (List Char)
  | [] => none
  | c :: rest =>
    if fenceSql.isPrefixOf (c :: rest) then
      match groupAfterFence ((c :: rest).drop fenceSql.length) with
      | some g => some g
      | none => findFence rest
    else findFence rest

/-- One attempt of the strict pattern
`SQL Query:.*?```sql\s*(.*?)\s*``` ` (re.DOTALL) at a fixed start
position. -/
def strictAttempt (l : List Char) : Option (List Char) :=
  if sqlLabel.isPrefixOf l then findFence (l.drop sqlLabel.length) else none

/-- `re.search` of the strict pattern (line 255): try each start position
left to right, returning the group of the leftmost successful attempt. -/
def strictSearch : List Char → Option (List Char)
  | [] => none
  | c :: rest =>
    match strictAttempt (c :: rest) with
    | some g => some g
    | none => strictSearch rest

/-- The lazy group of the fallback pattern
`SQL Query:\s*(.*?)(?=Example Data:|$)` (re.DOTALL, no re.MULTILINE),
applied after the leading greedy `\s*` has been committed: grow the group
until the lookahead holds, i.e. the rest of the input starts with
`Example Data:`, is empty, or is exactly a final newline (`$`). -/
def looseScan : List Char → List Char → List Char
  | acc, [] => acc.reverse
  | acc, c :: rest =>
    if exampleLabel.isPrefixOf (c :: rest) || (c = '\n' && rest.isEmpty) then acc.reverse
    else looseScan (c :: acc) rest

/-- The group produced by the fallback pattern on the text following the
label. -/
def looseGroup (l : List Char) : List Char :=
  looseScan [] (l.dropWhile pySpace)

/-- `re.search` of the fallback pattern (line 258): it succeeds at the
leftmost occurrence of `SQL Query:` (the lookahead always holds at the end
of the input, so the attempt there never fails). -/
def looseSearch : List Char → Option (List Char)
  | [] => none
  | c :: rest =>
    if sqlLabel.isPrefixOf (c :: rest) then
      some (looseGroup ((c :: rest).drop sqlLabel.length))
    else looseSearch rest

/-- SQL extraction (lines 254-264): strict pattern first, fallback pattern
only when the strict one has no match, then `group(1).strip()`. -/
def extractSqlL (l : List Char) : Option (List Char) :=
  match strictSearch l with
  | some g => some (pyStrip g)
  | none =>
    match looseSearch l with
    | some g => some (pyStrip g)
    | none => none

/-- String-level wrapper of the extraction. -/
def extractSql (text : String) : Option String :=
  (extractSqlL text.data).map fun l => { data := l }

/-- Whether the text contains the `SQL Query:` label at all (both patterns
begin with that literal, so without it neither can match). -/
def hasLabel : List Char → Bool
  | [] => false
  | c :: rest => sqlLabel.isPrefixOf (c :: rest) || hasLabel rest

/-- The JSON object returned by the conversion endpoint on success
(lines 272-276). -/
structure CombinedResponse where
  response : String
  sql_query : String
  execution_result : String
deriving DecidableEq

/-- Success path of the conversion endpoint after the agent returned
`response_text` (lines 251-279): extract the SQL, run it through the
database handle (`run` stands for `db.run`, whose behaviour belongs to the
external database), and package the combined response; extraction failure
raises the 500 of line 261. -/
def buildResponse (response_text : String) (run : String → String) :
    Except BackendError CombinedResponse :=
  match extractSql response_text with
  | none => .error (.httpError 500 "Could not extract SQL query from response")
  | some sql_query =>
    .ok { response := response_text
          sql_query := sql_query
          execution_result := run sql_query }

/-- One backend operation that touches the shared state, for stating
properties that hold for the lifetime of the process. -/
inductive Op where
  | createConn (database : String)
  | engineFor (database : String)
  | listDbs
  | listTbls (database : String)
  | saveCfg (s : Settings) (writeErr : Option String)

/-- State transition of one operation (output discarded). -/
def applyOp (st : BackendState) : Op → BackendState
  | .createConn database => (create_db_connection st database).2
  | .engineFor database => (get_engine st database).2
  | .listDbs => (list_databases st).2
  | .listTbls database => (list_tables st database).2
  | .saveCfg s writeErr => (save_config_details st s writeErr).2

/-- Concrete credentials used by the witnesses: the configuration present
at startup. -/
def d0 : DatabaseDetails :=
  { host := "dbhost", port := 1433, user := "alice", password := "pw1" }

/-- Concrete GPT settings present at startup. -/
def g0 : GptSettings :=
  { gpt_api_key := "key0", temperature := 0, model := "gemini-pro" }

/-- Concrete credentials submitted by a later save-config-details call. -/
def d1 : DatabaseDetails :=
  { host := "dbhost2", port := 1434, user := "bob", password := "pw2" }

/-- Concrete GPT settings submitted by the later save. -/
def g1 : GptSettings :=
  { gpt_api_key := "key1", temperature := 1/2, model := "gemini-ultra" }

/-- Concrete payload of the later save-config-details call. -/
def s1 : Settings := { database := d1, gpt := g1 }

/-- Concrete startup state: config file present with `d0`/`g0`. -/
def st0c : BackendState := load_config (some (d0, g0))

/-- State after the first resolution of database `Sales` from `st0c`. -/
def st1c : BackendState := (create_db_connection st0c "Sales").2

/-- State after a successful save of `s1` from `st1c`. -/
def st2c : BackendState := (save_config_details st1c s1 none).2

/-- The generator output of the spec's end-to-end scenario (with real
newlines). -/
def c4text : String :=
  "Explanation: ...\nSQL Query:\n```sql\nSELECT TOP 5 TileID, TileName FROM dbo.Tile\n```\nExample Data: ..."

/-- A generator output on which both the strict and the fallback pattern
have a match. -/
def bothPatternsText : String := "SQL Query: ```sql SELECT 1 ``` junk"

theorem lookup_cons_of_ne_key (l : List (String × DbHandle)) (k knew : String)
    (h hnew : DbHandle) (hk : l.lookup k = some h) (hnewk : l.lookup knew = none) :
    ((knew, hnew) :: l).lookup k = some h := by
  have hkk : k ≠ knew := by
    intro he
    rw [he, hnewk] at hk
    exact Option.noConfusion hk
  have hne : (k == knew) = false := by
    cases hb : (k == knew) with
    | false => rfl
    | true => exact absurd (eq_of_beq hb) hkk
  simp [List.lookup, hne, hk]

theorem create_db_connection_cached (st : BackendState) (db : String) (h : DbHandle)
    (hk : st.dbConnections.lookup db = some h) :
    create_db_connection st db = (.ok h, st) := by
  simp [create_db_connection, hk]

theorem create_db_connection_new (st : BackendState) (db : String) (d : DatabaseDetails)
    (hun : st.dbConnections.lookup db = none) (hcfg : st.databaseDetails = some d) :
    create_db_connection st db =
      (.ok { hid := st.nextHandle, connStr := mssqlConnStr d db },
       { st with
         dbConnections :=
           (db, { hid := st.nextHandle, connStr := mssqlConnStr d db }) :: st.dbConnections
         nextHandle := st.nextHandle + 1
         opened := st.opened + 1 }) := by
  simp [create_db_connection, hun, hcfg]

theorem get_engine_cached (st : BackendState) (db : String) (d : DatabaseDetails)
    (h : DbHandle) (hcfg : st.databaseDetails = some d)
    (hk : st.dbConnections.lookup (engineKey d db) = some h) :
    get_engine st db = (.ok h, st) := by
  simp [get_engine, hcfg, hk]

theorem get_engine_new (st : BackendState) (db : String) (d : DatabaseDetails)
    (hcfg : st.databaseDetails = some d)
    (hun : st.dbConnections.lookup (engineKey d db) = none) :
    get_engine st db =
      (.ok { hid := st.nextHandle, connStr := mssqlConnStr d db },
       { st with
         dbConnections :=
           (engineKey d db, { hid := st.nextHandle, connStr := mssqlConnStr d db }) ::
             st.dbConnections
         nextHandle := st.nextHandle + 1
         opened := st.opened + 1 }) := by
  simp [get_engine, hcfg, hun]

theorem create_db_connection_preserves_lookup (st : BackendState) (db k : String)
    (h : DbHandle) (hk : st.dbConnections.lookup k = some h) :
    ((create_db_connection st db).2).dbConnections.lookup k = some h := by
  cases hc : st.dbConnections.lookup db with
  | some hdb => simp [create_db_connection, hc, hk]
  | none =>
    cases hd : st.databaseDetails with
    | none => simp [create_db_connection, hc, hd, hk]
    | some d =>
      rw [create_db_connection_new st db d hc hd]
      exact lookup_cons_of_ne_key _ _ _ _ _ hk hc

theorem get_engine_preserves_lookup (st : BackendState) (db k : String)
    (h : DbHandle) (hk : st.dbConnections.lookup k = some h) :
    ((get_engine st db).2).dbConnections.lookup k = some h := by
  cases hd : st.databaseDetails with
  | none => simp [get_engine, hd, hk]
  | some d =>
    cases hc : st.dbConnections.lookup (engineKey d db) with
    | some hdb => simp [get_engine, hd, hc, hk]
    | none =>
      rw [get_engine_new st db d hd hc]
      exact lookup_cons_of_ne_key _ _ _ _ _ hk hc

theorem list_databases_preserves_lookup (st : BackendState) (k : String)
    (h : DbHandle) (hk : st.dbConnections.lookup k = some h) :
    ((list_databases st).2).dbConnections.lookup k = some h := by
  cases hd : st.databaseDetails with
  | none => simp [list_databases, hd, hk]
  | some d =>
    cases hc : st.dbConnections.lookup (serverKey d) with
    | some hdb => simp [list_databases, hd, hc, hk]
    | none =>
      simp only [list_databases, hd, hc]
      exact lookup_cons_of_ne_key _ _ _ _ _ hk hc

theorem list_tables_state (st : BackendState) (db : String) :
    (list_tables st db).2 = if db = "" then st else (get_engine st db).2 := by
  by_cases hdb : db = ""
  · simp [list_tables, hdb]
  · simp only [list_tables, if_neg hdb]
    rcases hres : get_engine st db with ⟨res, st1⟩
    cases res <;> simp

theorem save_config_details_connections (st : BackendState) (s : Settings)
    (w : Option String) :
    ((save_config_details st s w).2).dbConnections = st.dbConnections := by
  cases w <;> simp [save_config_details]

theorem applyOp_preserves_lookup (st : BackendState) (op : Op) (k : String)
    (h : DbHandle) (hk : st.dbConnections.lookup k = some h) :
    (applyOp st op).dbConnections.lookup k = some h := by
  cases op with
  | createConn db => exact create_db_connection_preserves_lookup st db k h hk
  | engineFor db => exact get_engine_preserves_lookup st db k h hk
  | listDbs => exact list_databases_preserves_lookup st k h hk
  | listTbls db =>
    show ((list_tables st db).2).dbConnections.lookup k = some h
    rw [list_tables_state]
    split
    · exact hk
    · exact get_engine_preserves_lookup st db k h hk
  | saveCfg s w =>
    show ((save_config_details st s w).2).dbConnections.lookup k = some h
    rw [save_config_details_connections]
    exact hk

theorem foldl_preserves_lookup (ops : List Op) (st : BackendState) (k : String)
    (h : DbHandle) (hk : st.dbConnections.lookup k = some h) :
    (ops.foldl applyOp st).dbConnections.lookup k = some h := by
  induction ops generalizing st with
  | nil => exact hk
  | cons op rest ih => exact ih _ (applyOp_preserves_lookup st op k h hk)

theorem lookup_cons_ne (l : List (String × DbHandle)) (k knew : String)
    (hnew : DbHandle) (hne : k ≠ knew) :
    ((knew, hnew) :: l).lookup k = l.lookup k := by
  have hb : (k == knew) = false := by
    cases hb2 : (k == knew) with
    | false => rfl
    | true => exact absurd (eq_of_beq hb2) hne
  simp [List.lookup, hb]

theorem strictAttempt_none_of_not_prefix (l : List Char)
    (h : sqlLabel.isPrefixOf l = false) : strictAttempt l = none := by
  simp [strictAttempt, h]

theorem strictSearch_none_of_noLabel (l : List Char) (h : hasLabel l = false) :
    strictSearch l = none := by
  induction l with
  | nil => rfl
  | cons c rest ih =>
    simp only [hasLabel, Bool.or_eq_false_iff] at h
    obtain ⟨h1, h2⟩ := h
    simp only [strictSearch, strictAttempt_none_of_not_prefix _ h1]
    exact ih h2

theorem looseSearch_none_of_noLabel (l : List Char) (h : hasLabel l = false) :
    looseSearch l = none := by
  induction l with
  | nil => rfl
  | cons c rest ih =>
    simp only [hasLabel, Bool.or_eq_false_iff] at h
    obtain ⟨h1, h2⟩ := h
    simp only [looseSearch, h1, Bool.false_eq_true, if_false]
    exact ih h2

theorem strictSearch_leftmost (l : List Char) (g : List Char)
    (h : strictSearch l = some g) :
    ∃ i, strictAttempt (l.drop i) = some g ∧
      ∀ j, j < i → strictAttempt (l.drop j) = none := by
  induction l with
  | nil => exact absurd h (by simp [strictSearch])
  | cons c rest ih =>
    cases ha : strictAttempt (c :: rest) with
    | some g2 =>
      have hg : g2 = g := by
        simp only [strictSearch, ha] at h
        exact Option.some.inj h
      refine ⟨0, ?_, ?_⟩
      · rw [List.drop_zero, ha, hg]
      · intro j hj
        exact absurd hj (Nat.not_lt_zero j)
    | none =>
      simp only [strictSearch, ha] at h
      obtain ⟨i, hi, hj⟩ := ih h
      refine ⟨i + 1, ?_, ?_⟩
      · simpa using hi
      · intro j hjlt
        cases j with
        | zero => simpa using ha
        | succ j2 => simpa using hj j2 (Nat.lt_of_succ_lt_succ hjlt)

/-- C2: on every generator output where both the strict pattern and the
fallback pattern have a match, extraction returns the (stripped) group of
the strict pattern's leftmost match — the position of that match admits no
earlier strict-pattern match — and the fallback's match is ignored. -/
theorem strict_pattern_beats_fallback (text : String) (g : List Char)
    (hs : strictSearch text.data = some g)
    (_hl : (looseSearch text.data).isSome = true) :
    extractSql text = some { data := pyStrip g } ∧
    ∃ i, strictAttempt (text.data.drop i) = some g ∧
      ∀ j, j < i → strictAttempt (text.data.drop j) = none := by
  constructor
  · simp [extractSql, extractSqlL, hs]
  · exact strictSearch_leftmost text.data g hs

/-- Witness for C2 on a concrete text where both patterns match. -/
theorem strict_pattern_beats_fallback_witness :
    strictSearch bothPatternsText.data = some "SELECT 1".data ∧
    (looseSearch bothPatternsText.data).isSome = true ∧
    (extractSql bothPatternsText = some { data := pyStrip "SELECT 1".data } ∧
     ∃ i, strictAttempt (bothPatternsText.data.drop i) = some "SELECT 1".data ∧
       ∀ j, j < i → strictAttempt (bothPatternsText.data.drop j) = none) :=
  ⟨by decide, by decide,
   strict_pattern_beats_fallback bothPatternsText "SELECT 1".data (by decide) (by decide)⟩

/-- C3 counterexample: on the text consisting of just the label, the
fallback pattern matches with an empty group, so extraction *succeeds* with
the empty string — which the endpoint then hands to `db.run` — refuting
the claim that no input makes extraction return an empty statement. -/
theorem extraction_returns_empty_on_bare_label :
    extractSql "SQL Query:" = some "" ∧
    buildResponse "SQL Query:" (fun q => q) =
      .ok { response := "SQL Query:", sql_query := "", execution_result := "" } := by
  exact ⟨by decide, by rfl⟩

/-- C3 amended: extraction does fail on every text with no `SQL Query:`
label; but it does not guard against an empty statement — a bare label
(followed by nothing, or only whitespace) successfully extracts the empty
string, which is then passed to execution. -/
theorem extraction_fails_only_without_label :
    (∀ text : String, hasLabel text.data = false → extractSql text = none) ∧
    extractSql "SQL Query:" = some "" := by
  constructor
  · intro text h
    have hs := strictSearch_none_of_noLabel text.data h
    have hl := looseSearch_none_of_noLabel text.data h
    simp [extractSql, extractSqlL, hs, hl]
  · decide

/-- Witness for C3's amended universal part on a concrete label-free text. -/
theorem extraction_fails_only_without_label_witness :
    hasLabel "no sql here".data = false ∧ extractSql "no sql here" = none :=
  ⟨by decide, extraction_fails_only_without_label.1 "no sql here" (by decide)⟩

/-- C4: on the spec's example generator output, extraction yields exactly
`SELECT TOP 5 TileID, TileName FROM dbo.Tile`, and the combined success
response of the endpoint carries that exact string in its `sql_query`
field (whatever the database returns for it). -/
theorem tile_query_extraction_end_to_end :
    extractSql c4text = some "SELECT TOP 5 TileID, TileName FROM dbo.Tile" ∧
    ∀ run : String → String,
      buildResponse c4text run =
        .ok { response := c4text
              sql_query := "SELECT TOP 5 TileID, TileName FROM dbo.Tile"
              execution_result := run "SELECT TOP 5 TileID, TileName FROM dbo.Tile" } := by
  have h : extractSql c4text = some "SELECT TOP 5 TileID, TileName FROM dbo.Tile" := by
    decide
  exact ⟨h, fun run => by simp [buildResponse, h]⟩

/-- C1: the first `create_db_connection` call on a previously-unseen
database key opens exactly one new connection (the `opened` counter grows
by one) and stores it in the registry; every later call with the same key
— after any sequence of backend operations — returns the very same handle
and leaves the state untouched (zero additional connections opened). -/
theorem resolve_opens_once_then_always_cached (st : BackendState) (db : String)
    (d : DatabaseDetails) (hun : st.dbConnections.lookup db = none)
    (hcfg : st.databaseDetails = some d) :
    ∃ h st', create_db_connection st db = (.ok h, st') ∧
      st'.opened = st.opened + 1 ∧
      st'.dbConnections.lookup db = some h ∧
      ∀ ops : List Op, create_db_connection (ops.foldl applyOp st') db =
        (.ok h, ops.foldl applyOp st') := by
  refine ⟨_, _, create_db_connection_new st db d hun hcfg, rfl, ?_, ?_⟩
  · simp [List.lookup]
  · intro ops
    exact create_db_connection_cached _ _ _
      (foldl_preserves_lookup ops _ db _ (by simp [List.lookup]))

/-- Witness for C1 at the concrete startup state. -/
theorem resolve_opens_once_then_always_cached_witness :
    st0c.dbConnections.lookup "Sales" = none ∧ st0c.databaseDetails = some d0 ∧
    (∃ h st', create_db_connection st0c "Sales" = (.ok h, st') ∧
      st'.opened = st0c.opened + 1 ∧
      st'.dbConnections.lookup "Sales" = some h ∧
      ∀ ops : List Op, create_db_connection (ops.foldl applyOp st') "Sales" =
        (.ok h, ops.foldl applyOp st')) :=
  ⟨by decide, by decide,
   resolve_opens_once_then_always_cached st0c "Sales" d0 (by decide) (by decide)⟩

/-- C5 counterexample: under one fixed configuration, resolving database
`Sales` through `create_db_connection` and then through `get_engine` does
not hit one shared registry entry — the two calls allocate two distinct
handles (identities 0 and 1), because the first caches under the key
`Sales` and the second under `dbhost:1433/Sales`. -/
theorem create_and_get_engine_distinct_handles_cex :
    (create_db_connection st0c "Sales").1 =
      .ok { hid := 0, connStr := mssqlConnStr d0 "Sales" } ∧
    (get_engine st1c "Sales").1 =
      .ok { hid := 1, connStr := mssqlConnStr d0 "Sales" } ∧
    ({ hid := 0, connStr := mssqlConnStr d0 "Sales" } : DbHandle) ≠
      { hid := 1, connStr := mssqlConnStr d0 "Sales" } :=
  ⟨rfl, rfl, by decide⟩

/-- C5 amended: each resolver is internally consistent — repeated calls
with the same database name return the same handle — but
`create_db_connection` keys the registry by the bare database name while
`get_engine` keys it by `host:port/database`, so the same database resolved
through both yields two separate registry entries holding two distinct
handles. -/
theorem two_key_formats_give_separate_entries (st : BackendState)
    (d : DatabaseDetails) (db : String) (hcfg : st.databaseDetails = some d)
    (h1 : st.dbConnections.lookup db = none)
    (h2 : st.dbConnections.lookup (engineKey d db) = none)
    (hne : engineKey d db ≠ db) :
    ∃ hA st1 hB st2,
      create_db_connection st db = (.ok hA, st1) ∧
      get_engine st1 db = (.ok hB, st2) ∧
      hA ≠ hB ∧
      st2.dbConnections.lookup db = some hA ∧
      st2.dbConnections.lookup (engineKey d db) = some hB ∧
      create_db_connection st2 db = (.ok hA, st2) ∧
      get_engine st2 db = (.ok hB, st2) := by
  have hc1 := create_db_connection_new st db d h1 hcfg
  set hA : DbHandle := { hid := st.nextHandle, connStr := mssqlConnStr d db } with hAdef
  set st1 : BackendState :=
    { st with
      dbConnections := (db, hA) :: st.dbConnections
      nextHandle := st.nextHandle + 1
      opened := st.opened + 1 } with st1def
  have hcfg1 : st1.databaseDetails = some d := hcfg
  have hun1 : st1.dbConnections.lookup (engineKey d db) = none := by
    rw [st1def]
    show ((db, hA) :: st.dbConnections).lookup (engineKey d db) = none
    rw [lookup_cons_ne _ _ _ _ hne]
    exact h2
  have hc2 := get_engine_new st1 db d hcfg1 hun1
  set hB : DbHandle := { hid := st1.nextHandle, connStr := mssqlConnStr d db } with hBdef
  set st2 : BackendState :=
    { st1 with
      dbConnections := (engineKey d db, hB) :: st1.dbConnections
      nextHandle := st1.nextHandle + 1
      opened := st1.opened + 1 } with st2def
  have hlookA : st2.dbConnections.lookup db = some hA := by
    rw [st2def]
    show ((engineKey d db, hB) :: st1.dbConnections).lookup db = some hA
    rw [lookup_cons_ne _ _ _ _ (fun he => hne he.symm)]
    rw [st1def]
    show ((db, hA) :: st.dbConnections).lookup db = some hA
    simp [List.lookup]
  have hlookB : st2.dbConnections.lookup (engineKey d db) = some hB := by
    rw [st2def]
    show ((engineKey d db, hB) :: st1.dbConnections).lookup (engineKey d db) = some hB
    simp [List.lookup]
  refine ⟨hA, st1, hB, st2, hc1, hc2, ?_, hlookA, hlookB, ?_, ?_⟩
  · intro he
    have hids := congrArg DbHandle.hid he
    simp only [hAdef, hBdef, st1def] at hids
    omega
  · exact create_db_connection_cached _ _ _ hlookA
  · exact get_engine_cached _ _ d _ (by rw [st2def, st1def]; exact hcfg) hlookB

/-- Witness for C5's amended statement at the concrete startup state. -/
theorem two_key_formats_give_separate_entries_witness :
    st0c.databaseDetails = some d0 ∧
    st0c.dbConnections.lookup "Sales" = none ∧
    st0c.dbConnections.lookup (engineKey d0 "Sales") = none ∧
    engineKey d0 "Sales" ≠ "Sales" ∧
    (∃ hA st1 hB st2,
      create_db_connection st0c "Sales" = (.ok hA, st1) ∧
      get_engine st1 "Sales" = (.ok hB, st2) ∧
      hA ≠ hB ∧
      st2.dbConnections.lookup "Sales" = some hA ∧
      st2.dbConnections.lookup (engineKey d0 "Sales") = some hB ∧
      create_db_connection st2 "Sales" = (.ok hA, st2) ∧
      get_engine st2 "Sales" = (.ok hB, st2)) :=
  ⟨by decide, by decide, by decide, by decide,
   two_key_formats_give_separate_entries st0c d0 "Sales" (by decide) (by decide)
     (by decide) (by decide)⟩

/-- C6 counterexample: `save-config-details` succeeds with the new
credentials `d1`, yet the next resolve of the previously-seen database
`Sales` returns the cached handle still built from the old credentials
`d0` — the newly saved credentials are not used for already-resolved
names. -/
theorem cached_handle_keeps_old_credentials_cex :
    (save_config_details st1c s1 none).1 =
      .ok "Database and GPT details saved successfully!" ∧
    (create_db_connection st2c "Sales").1 =
      .ok { hid := 0, connStr := mssqlConnStr d0 "Sales" } ∧
    mssqlConnStr d0 "Sales" ≠ mssqlConnStr d1 "Sales" :=
  ⟨rfl, rfl, by decide⟩

/-- C6 amended: after a successful save, a resolve for a previously-unseen
database name opens its connection with the newly saved credentials, but a
resolve for a name cached before the save returns the old handle (opened
with the old credentials) unchanged. -/
theorem save_affects_only_unseen_databases (st : BackendState) (s : Settings)
    (dbNew dbOld : String) (hOld : DbHandle)
    (hun : ((save_config_details st s none).2).dbConnections.lookup dbNew = none)
    (hc : ((save_config_details st s none).2).dbConnections.lookup dbOld = some hOld) :
    (create_db_connection (save_config_details st s none).2 dbNew).1 =
      .ok { hid := st.nextHandle, connStr := mssqlConnStr s.database dbNew } ∧
    create_db_connection (save_config_details st s none).2 dbOld =
      (.ok hOld, (save_config_details st s none).2) := by
  constructor
  · rw [create_db_connection_new _ dbNew s.database hun rfl]
    rfl
  · exact create_db_connection_cached _ _ _ hc

/-- Witness for C6's amended statement: `Sales` was cached before the save,
`Marketing` was not. -/
theorem save_affects_only_unseen_databases_witness :
    ((save_config_details st1c s1 none).2).dbConnections.lookup "Marketing" = none ∧
    ((save_config_details st1c s1 none).2).dbConnections.lookup "Sales" =
      some { hid := 0, connStr := mssqlConnStr d0 "Sales" } ∧
    ((create_db_connection (save_config_details st1c s1 none).2 "Marketing").1 =
      .ok { hid := st1c.nextHandle, connStr := mssqlConnStr s1.database "Marketing" } ∧
    create_db_connection (save_config_details st1c s1 none).2 "Sales" =
      (.ok { hid := 0, connStr := mssqlConnStr d0 "Sales" },
       (save_config_details st1c s1 none).2)) :=
  ⟨by decide, by decide,
   save_affects_only_unseen_databases st1c s1 "Marketing" "Sales"
     { hid := 0, connStr := mssqlConnStr d0 "Sales" } (by decide) (by decide)⟩

/-- C7: saving the same payload twice in succession produces exactly the
same result and state (in-memory `DATABASE_DETAILS` and `GPT_SETTINGS`,
connection registry, and persisted config-file contents) as saving it
once. -/
theorem save_config_details_idempotent (st : BackendState) (s : Settings) :
    save_config_details (save_config_details st s none).2 s none =
      save_config_details st s none := rfl

/-- C8 counterexample: with the config file absent (empty configuration),
`create_db_connection` does not fail with the configuration-missing error:
it raises `KeyError('user')` from the credentials dict — a different error
kind (the `except` clause of `create_db_connection` only catches
`SQLAlchemyError`). -/
theorem empty_config_resolve_keyerror_cex :
    (create_db_connection (load_config none) "Sales").1 =
      .error (.keyError "user") ∧
    BackendError.keyError "user" ≠ configurationMissing :=
  ⟨rfl, by decide⟩

/-- C8 amended: with an empty configuration no dependent operation
succeeds, but only `list_databases` fails with the explicit
configuration-missing error; `create_db_connection` raises
`KeyError('user')` and `list-tables` surfaces the `KeyError('host')` of
`get_engine` wrapped as a generic 500 — both different error kinds. -/
theorem empty_config_error_kinds (st : BackendState) (db : String)
    (hcfg : st.databaseDetails = none) (hconn : st.dbConnections = [])
    (hdb : db ≠ "") :
    (create_db_connection st db).1 = .error (.keyError "user") ∧
    (list_databases st).1 = .error configurationMissing ∧
    (list_tables st db).1 =
      .error (.httpError 500
        ("Error processing the request: " ++ errStr (.keyError "host"))) ∧
    BackendError.keyError "user" ≠ configurationMissing ∧
    BackendError.httpError 500
        ("Error processing the request: " ++ errStr (.keyError "host")) ≠
      configurationMissing := by
  refine ⟨?_, ?_, ?_, by decide, by decide⟩
  · simp [create_db_connection, hconn, hcfg]
  · simp [list_databases, hcfg]
  · simp [list_tables, hdb, get_engine, hcfg]

/-- Witness for C8's amended statement at the no-config-file startup
state. -/
theorem empty_config_error_kinds_witness :
    (load_config none).databaseDetails = none ∧
    (load_config none).dbConnections = [] ∧
    ("Sales" : String) ≠ "" ∧
    ((create_db_connection (load_config none) "Sales").1 =
      .error (.keyError "user") ∧
    (list_databases (load_config none)).1 = .error configurationMissing ∧
    (list_tables (load_config none) "Sales").1 =
      .error (.httpError 500
        ("Error processing the request: " ++ errStr (.keyError "host"))) ∧
    BackendError.keyError "user" ≠ configurationMissing ∧
    BackendError.httpError 500
        ("Error processing the request: " ++ errStr (.keyError "host")) ≠
      configurationMissing) :=
  ⟨rfl, rfl, by decide,
   empty_config_error_kinds (load_config none) "Sales" rfl rfl (by decide)⟩

/-- C9 (code bug): a present-but-empty `database` query value makes the
handler raise `HTTPException(400, "Database name is required.")`, but its
own blanket `except Exception` catches that exception and re-raises it as
a 500 whose detail embeds the intended 400 — the client receives a 500,
not the 400 the spec (and the handler's own `raise`) intend. -/
theorem list_tables_empty_name_yields_500 (st : BackendState) :
    list_tables st "" =
      (.error (.httpError 500 ("Error processing the request: " ++
        errStr (.httpError 400 "Database name is required."))), st) ∧
    BackendError.httpError 500 ("Error processing the request: " ++
        errStr (.httpError 400 "Database name is required.")) ≠
      .httpError 400 "Database name is required." :=
  ⟨rfl, by decide⟩

/-- C10: when the config-file write raises, `save-config-details` returns
a 500, yet the in-memory configuration keeps the new payload while the
persisted file keeps its old contents (no rollback), so a subsequent
resolve of an unseen database opens its connection with the never-persisted
credentials. -/
theorem save_failure_keeps_new_config_in_memory (st : BackendState) (s : Settings)
    (msg : String) (db : String) (hun : st.dbConnections.lookup db = none) :
    (save_config_details st s (some msg)).1 =
        .error (.httpError 500 ("Error saving config details: " ++ msg)) ∧
    ((save_config_details st s (some msg)).2).databaseDetails = some s.database ∧
    ((save_config_details st s (some msg)).2).gptSettings = some s.gpt ∧
    ((save_config_details st s (some msg)).2).configFile = st.configFile ∧
    (create_db_connection (save_config_details st s (some msg)).2 db).1 =
      .ok { hid := st.nextHandle, connStr := mssqlConnStr s.database db } := by
  refine ⟨rfl, rfl, rfl, rfl, ?_⟩
  have hun2 : ((save_config_details st s (some msg)).2).dbConnections.lookup db = none :=
    hun
  rw [create_db_connection_new _ db s.database hun2 rfl]
  rfl

/-- Witness for C10 at the concrete startup state. -/
theorem save_failure_keeps_new_config_in_memory_witness :
    st0c.dbConnections.lookup "Sales" = none ∧
    ((save_config_details st0c s1 (some "disk full")).1 =
        .error (.httpError 500 ("Error saving config details: " ++ "disk full")) ∧
    ((save_config_details st0c s1 (some "disk full")).2).databaseDetails =
      some s1.database ∧
    ((save_config_details st0c s1 (some "disk full")).2).gptSettings = some s1.gpt ∧
    ((save_config_details st0c s1 (some "disk full")).2).configFile = st0c.configFile ∧
    (create_db_connection (save_config_details st0c s1 (some "disk full")).2 "Sales").1 =
      .ok { hid := st0c.nextHandle, connStr := mssqlConnStr s1.database "Sales" }) :=
  ⟨by decide,
   save_failure_keeps_new_config_in_memory st0c s1 "disk full" "Sales" (by decide)⟩

end SqlAgent
